import Mathlib

/-!
Verification of the subscription reminder scheduler of the gym-management bot.

Shallow embedding conventions:
* Python `date` values are day ordinals (`Int`); `(d2 - d1).days` is plain
  integer subtraction.  `datetime` timestamps are also `Int` instants.
* `src/app/db/models.py`: `SubscriptionStatus` is a closed enumeration and
  `Subscription` keeps the fields the scheduler reads.  The Python class is a
  `str`-enum, so the source comparison `s.status == "active"` coincides with
  `s.status == SubscriptionStatus.ACTIVE`; both are embedded as equality with
  `SubscriptionStatus.active`.
* Fallible collaborator calls (Supabase reads, Telegram sends, row updates)
  are driven by an explicit environment of failure flags; a Python exception
  that escapes a `try` block is an `Option`/`Except` error value.
* The rendered reminder message is abstracted to the list of subscription ids
  it lists; formatting (names, dates, amounts) is not needed by any claim.
-/

/-- `SubscriptionStatus` from `src/app/db/models.py` (lines 39-43). -/
inductive SubscriptionStatus where
  | active
  | expired
  | cancelled
  | frozen
  deriving DecidableEq, Repr

/-- `Subscription` from `src/app/db/models.py`: the fields read by the
scheduler and the store.  Dates are day ordinals, timestamps instants. -/
structure Subscription where
  id : Nat
  business_id : String
  client_id : Nat
  amount : Int
  currency : String
  start_date : Int
  end_date : Int
  status : SubscriptionStatus
  reminder_sent_at : Option Int
  deriving DecidableEq, Repr

/-- The inline due-set filter of `send_reminder_for_business`
(`src/app/bot/scheduler.py` lines 138-143):
`s.status == "active" and (s.end_date - today).days == days_until and
s.reminder_sent_at is None`. -/
def expiring_today (subs : List Subscription) (today days_until : Int) :
    List Subscription :=
  subs.filter fun s =>
    s.status == SubscriptionStatus.active
      && s.end_date - today == days_until
      && s.reminder_sent_at == none

/-- The filter of `SupabaseClient.list_expiring_subscriptions`
(`src/app/db/supabase.py` lines 546-567): status active, `today <= end_date
<= today + days_until`, reminder not yet sent. -/
def list_expiring_subscriptions (subs : List Subscription)
    (today days_until : Int) : List Subscription :=
  let cutoff_date := today + days_until
  subs.filter fun s =>
    s.status == SubscriptionStatus.active
      && (decide (today ≤ s.end_date) && decide (s.end_date ≤ cutoff_date))
      && s.reminder_sent_at == none

/-- The store update of `SupabaseClient.mark_reminder_sent`
(`src/app/db/supabase.py` lines 569-593): `PATCH /subscriptions?id=eq.{sid}`
setting `reminder_sent_at` to the current instant on every row whose id
matches. -/
def mark_reminder_sent (sid : Nat) (now : Int)
    (subs : List Subscription) : List Subscription :=
  subs.map fun s =>
    if s.id == sid then { s with reminder_sent_at := some now } else s

/-- The marking loop of `send_reminder_for_business`
(`src/app/bot/scheduler.py` lines 178-184): each due subscription's marking is
attempted inside its own `try`; a failing marking (`markFails`) is logged and
leaves the store unchanged, and the loop continues with the next one.
All markings of one invocation are stamped with the single instant `now`. -/
def markRemindersLoop (markFails : Nat → Bool) (now : Int)
    (expiring : List Subscription) (subs : List Subscription) :
    List Subscription :=
  expiring.foldl
    (fun acc sub => if markFails sub.id then acc
                    else mark_reminder_sent sub.id now acc)
    subs

/-- Which collaborator calls fail during one invocation of
`send_reminder_for_business`: loading the subscriptions, loading the clients,
the Telegram send, and the per-subscription markings. -/
structure ReminderEnv where
  loadSubsFails : Bool
  loadClientsFails : Bool
  sendFails : Bool
  markFails : Nat → Bool

/-- The environment in which every collaborator call succeeds. -/
def ReminderEnv.allOk : ReminderEnv :=
  { loadSubsFails := false, loadClientsFails := false, sendFails := false,
    markFails := fun _ => false }

/-- The exceptions that can reach the outer `try` of
`send_reminder_for_business`. -/
inductive ReminderError where
  | loadSubsError
  | loadClientsError
  | sendError
  deriving DecidableEq, Repr

/-- Everything one invocation of `send_reminder_for_business` did:
the store afterwards, each delivered message (as the ids it lists), the ids
whose marking was attempted, the exception that escaped to the caller (if
any), and the exception caught and logged by the routine's own outer
`except` handler (if any). -/
structure RoutineResult where
  subs : List Subscription
  sentMessages : List (List Nat)
  markAttempts : List Nat
  raised : Option ReminderError
  logged : Option ReminderError
  deriving Repr

/-- The body of `send_reminder_for_business` (`src/app/bot/scheduler.py`
lines 131-184), i.e. the contents of its outer `try`: load the
subscriptions, filter to `expiring_today`, return silently if empty, load the
clients, send the one aggregated message, then mark each due subscription.
Returns the store, the delivered messages, the attempted markings, and the
exception (if any) that the body raises toward the outer handler; effects
performed before a failure point are kept. -/
def sendReminderBody (env : ReminderEnv) (subs : List Subscription)
    (today days_until now : Int) :
    List Subscription × List (List Nat) × List Nat × Option ReminderError :=
  if env.loadSubsFails then
    (subs, [], [], some ReminderError.loadSubsError)
  else
    let expiring := expiring_today subs today days_until
    if expiring.isEmpty then
      (subs, [], [], none)
    else if env.loadClientsFails then
      (subs, [], [], some ReminderError.loadClientsError)
    else if env.sendFails then
      (subs, [], [], some ReminderError.sendError)
    else
      (markRemindersLoop env.markFails now expiring subs,
       [expiring.map (·.id)], expiring.map (·.id), none)

/-- `send_reminder_for_business` (`src/app/bot/scheduler.py` lines 118-187):
the body wrapped in the outer `try/except Exception` (lines 186-187), which
catches any exception of the body, logs it, and returns normally — so no
exception is ever raised to the caller. -/
def send_reminder_for_business (env : ReminderEnv) (subs : List Subscription)
    (today days_until now : Int) : RoutineResult :=
  match sendReminderBody env subs today days_until now with
  | (subs', msgs, attempts, err) =>
    { subs := subs', sentMessages := msgs, markAttempts := attempts,
      raised := none, logged := err }

/-- One row of the `/owner_profiles` response as read by the hourly sweep
(`src/app/bot/scheduler.py` lines 84-94): a loosely-typed dict whose keys may
be absent (`none`). Only the keys the sweep reads are kept. -/
structure OwnerRow where
  reminder_hour : Option Int
  telegram_user_id : Option Int
  reminder_days_before : Option Int
  deriving DecidableEq, Repr

/-- What the sweep's loop body did for one owner row: the invocations of the
guarded inner block (`get_owner_by_telegram` + `send_reminder_for_business`,
recorded as the `(telegram_user_id, days_before)` arguments passed to it) and
the exception caught and logged by the per-owner `except` (if any). -/
structure PerOwnerResult where
  calls : List (Int × Int)
  logged : Option String
  deriving DecidableEq, Repr

/-- One iteration of the owner loop of `_send_hourly_reminders`
(`src/app/bot/scheduler.py` lines 84-111): `owner_row.get("reminder_hour", 10)`
is compared with the current hour; the row is skipped when the hour does not
match or when `telegram_user_id` is falsy (absent or zero);
`owner_row.get("reminder_days_before", 7)` supplies the lead time; the guarded
inner block `handle` is invoked once and any exception it raises is caught and
logged (lines 109-111). -/
def perOwner (current_hour : Int) (handle : Int → Int → Except String Unit)
    (row : OwnerRow) : PerOwnerResult :=
  let reminder_hour := row.reminder_hour.getD 10
  if reminder_hour ≠ current_hour then
    { calls := [], logged := none }
  else
    let telegram_user_id := row.telegram_user_id.getD 0
    let days_before := row.reminder_days_before.getD 7
    if telegram_user_id = 0 then
      { calls := [], logged := none }
    else
      match handle telegram_user_id days_before with
      | Except.ok _ => { calls := [(telegram_user_id, days_before)], logged := none }
      | Except.error e => { calls := [(telegram_user_id, days_before)], logged := some e }

/-- The owner loop of `_send_hourly_reminders`: every row is handled in turn
by `perOwner`; a caught per-owner exception does not stop the loop. -/
def sweepLoop (current_hour : Int) (handle : Int → Int → Except String Unit) :
    List OwnerRow → List PerOwnerResult
  | [] => []
  | row :: rest =>
      perOwner current_hour handle row :: sweepLoop current_hour handle rest

/-- Outcome of the `/owner_profiles` fetch at the start of the sweep:
a row list, an HTTP error status (`status_code >= 400`), or a raised
exception. -/
inductive FetchResult where
  | rows (owners : List OwnerRow)
  | httpError (text : String)
  | exn (e : String)
  deriving Repr

/-- The contents of the outer `try` of `_send_hourly_reminders`
(`src/app/bot/scheduler.py` lines 67-113): an HTTP error is logged and the
sweep returns with no owner processed; a raised exception propagates toward
the outer handler; otherwise the owner loop runs. -/
def sweepBody (fetch : FetchResult) (current_hour : Int)
    (handle : Int → Int → Except String Unit) :
    Except String (List PerOwnerResult) :=
  match fetch with
  | FetchResult.exn e => Except.error e
  | FetchResult.httpError _ => Except.ok []
  | FetchResult.rows owners => Except.ok (sweepLoop current_hour handle owners)

/-- `_send_hourly_reminders` (`src/app/bot/scheduler.py` lines 54-116): the
body wrapped in the outer `except Exception` (lines 115-116), which catches
any exception, logs it, and returns normally. -/
def send_hourly_reminders (fetch : FetchResult) (current_hour : Int)
    (handle : Int → Int → Except String Unit) :
    Except String (List PerOwnerResult) :=
  match sweepBody fetch current_hour handle with
  | Except.ok results => Except.ok results
  | Except.error _ => Except.ok []

/-- State of one `apscheduler` `AsyncIOScheduler` object, modelled from the
library's documented semantics: a running flag and the registered jobs;
`shutdown()` on a scheduler that is not running raises
`SchedulerNotRunningError`. -/
structure APSchedulerState where
  running : Bool
  jobs : List String
  deriving DecidableEq, Repr

/-- State relevant to `SubscriptionReminderScheduler.start`/`stop`
(`src/app/bot/scheduler.py` lines 24-52): the `self.scheduler` field (an
index into the pool of all `AsyncIOScheduler` objects created so far, or
`none`) and that pool.  A scheduler object replaced in the field is not shut
down and keeps running in the event loop. -/
structure SchedulerWorld where
  scheduler : Option Nat
  pool : List APSchedulerState
  deriving DecidableEq, Repr

/-- The state after `SubscriptionReminderScheduler.__init__`:
`self.scheduler = None`, no scheduler object created yet. -/
def SchedulerWorld.initial : SchedulerWorld :=
  { scheduler := none, pool := [] }

/-- `SubscriptionReminderScheduler.start` (`src/app/bot/scheduler.py` lines
28-44): unconditionally create a fresh `AsyncIOScheduler`, register the one
`hourly_reminders` job on it, start it, and store it in `self.scheduler`.
The previously stored scheduler (if any) is neither shut down nor touched. -/
def SchedulerWorld.start (w : SchedulerWorld) : SchedulerWorld :=
  { scheduler := some w.pool.length,
    pool := w.pool ++ [{ running := true, jobs := ["hourly_reminders"] }] }

/-- `SubscriptionReminderScheduler.stop` (`src/app/bot/scheduler.py` lines
46-52): if `self.scheduler` is set, call `shutdown()` on it — which stops it
when it is running and raises `SchedulerNotRunningError` when it is not;
`self.scheduler` is never reset to `None`.  With no scheduler stored, the
call is a no-op. -/
def SchedulerWorld.stop (w : SchedulerWorld) : Except String SchedulerWorld :=
  match w.scheduler with
  | none => Except.ok w
  | some i =>
    match w.pool.get? i with
    | none => Except.ok w
    | some sch =>
      if sch.running then
        Except.ok { w with pool := w.pool.set i { sch with running := false } }
      else
        Except.error "SchedulerNotRunningError"

/-- Number of live hourly timer registrations: the jobs of every scheduler
object that is currently running. -/
def activeTimerRegistrations (w : SchedulerWorld) : Nat :=
  ((w.pool.filter (·.running)).map (fun sch => sch.jobs.length)).sum

theorem mem_expiring_today {subs : List Subscription} {today days_until : Int}
    {s : Subscription} :
    s ∈ expiring_today subs today days_until ↔
      s ∈ subs ∧ s.status = SubscriptionStatus.active ∧
        s.end_date - today = days_until ∧ s.reminder_sent_at = none := by
  simp [expiring_today, List.mem_filter, and_assoc]

theorem mem_list_expiring {subs : List Subscription} {today days_until : Int}
    {s : Subscription} :
    s ∈ list_expiring_subscriptions subs today days_until ↔
      s ∈ subs ∧ s.status = SubscriptionStatus.active ∧
        today ≤ s.end_date ∧ s.end_date ≤ today + days_until ∧
        s.reminder_sent_at = none := by
  simp [list_expiring_subscriptions, List.mem_filter, and_assoc]

theorem mark_reminder_sent_none {sid : Nat} {now : Int}
    {subs : List Subscription} {t : Subscription}
    (ht : t ∈ mark_reminder_sent sid now subs)
    (hn : t.reminder_sent_at = none) : t ∈ subs ∧ t.id ≠ sid := by
  simp only [mark_reminder_sent, List.mem_map] at ht
  obtain ⟨u, hu, rfl⟩ := ht
  by_cases hbeq : (u.id == sid) = true
  · rw [if_pos hbeq] at hn
    simp at hn
  · rw [if_neg hbeq] at hn ⊢
    exact ⟨hu, by simpa using hbeq⟩

theorem mark_reminder_sent_marked {sid : Nat} {now : Int}
    {subs : List Subscription} {t : Subscription}
    (ht : t ∈ mark_reminder_sent sid now subs)
    (hid : t.id = sid) : t.reminder_sent_at = some now := by
  simp only [mark_reminder_sent, List.mem_map] at ht
  obtain ⟨u, hu, rfl⟩ := ht
  by_cases hbeq : (u.id == sid) = true
  · rw [if_pos hbeq]
  · rw [if_neg hbeq] at hid ⊢
    exact absurd (by simpa using hid) (by simpa using hbeq)

theorem mark_reminder_sent_preserves {sid sid2 : Nat} {now : Int}
    {subs : List Subscription}
    (h : ∀ u ∈ subs, u.id = sid → u.reminder_sent_at = some now) :
    ∀ t ∈ mark_reminder_sent sid2 now subs,
      t.id = sid → t.reminder_sent_at = some now := by
  intro t ht hid
  simp only [mark_reminder_sent, List.mem_map] at ht
  obtain ⟨u, hu, rfl⟩ := ht
  by_cases hbeq : (u.id == sid2) = true
  · rw [if_pos hbeq]
  · rw [if_neg hbeq] at hid ⊢
    exact h u hu hid

theorem markRemindersLoop_nil (mf : Nat → Bool) (now : Int)
    (acc : List Subscription) : markRemindersLoop mf now [] acc = acc := rfl

theorem markRemindersLoop_cons (mf : Nat → Bool) (now : Int)
    (e : Subscription) (rest : List Subscription) (acc : List Subscription) :
    markRemindersLoop mf now (e :: rest) acc =
      markRemindersLoop mf now rest
        (if mf e.id then acc else mark_reminder_sent e.id now acc) := rfl

theorem markRemindersLoop_none {mf : Nat → Bool} {now : Int} :
    ∀ (l acc : List Subscription) (t : Subscription),
      t ∈ markRemindersLoop mf now l acc → t.reminder_sent_at = none →
        t ∈ acc ∧ ∀ e ∈ l, mf e.id = false → t.id ≠ e.id := by
  intro l
  induction l with
  | nil =>
    intro acc t ht hn
    rw [markRemindersLoop_nil] at ht
    exact ⟨ht, by simp⟩
  | cons e rest ih =>
    intro acc t ht hn
    rw [markRemindersLoop_cons] at ht
    obtain ⟨hacc, hrest⟩ := ih _ t ht hn
    by_cases hf : mf e.id = true
    · rw [if_pos hf] at hacc
      refine ⟨hacc, ?_⟩
      intro e' he' hfe'
      rcases List.mem_cons.mp he' with rfl | he'
      · exact absurd hf (by simp [hfe'])
      · exact hrest e' he' hfe'
    · rw [if_neg hf] at hacc
      obtain ⟨hmem, hne⟩ := mark_reminder_sent_none hacc hn
      refine ⟨hmem, ?_⟩
      intro e' he' hfe'
      rcases List.mem_cons.mp he' with rfl | he'
      · exact hne
      · exact hrest e' he' hfe'

theorem markRemindersLoop_preserves {mf : Nat → Bool} {now : Int} {sid : Nat} :
    ∀ (l acc : List Subscription),
      (∀ t ∈ acc, t.id = sid → t.reminder_sent_at = some now) →
      ∀ t ∈ markRemindersLoop mf now l acc,
        t.id = sid → t.reminder_sent_at = some now := by
  intro l
  induction l with
  | nil =>
    intro acc hacc t ht
    rw [markRemindersLoop_nil] at ht
    exact hacc t ht
  | cons e rest ih =>
    intro acc hacc t ht
    rw [markRemindersLoop_cons] at ht
    refine ih _ ?_ t ht
    by_cases hf : mf e.id = true
    · rw [if_pos hf]; exact hacc
    · rw [if_neg hf]
      exact mark_reminder_sent_preserves hacc

theorem markRemindersLoop_marked {mf : Nat → Bool} {now : Int}
    {s : Subscription} :
    ∀ (l acc : List Subscription), s ∈ l → mf s.id = false →
      ∀ t ∈ markRemindersLoop mf now l acc,
        t.id = s.id → t.reminder_sent_at = some now := by
  intro l
  induction l with
  | nil => intro acc hs; exact absurd hs (List.not_mem_nil s)
  | cons e rest ih =>
    intro acc hs hf t ht hid
    rw [markRemindersLoop_cons] at ht
    rcases List.mem_cons.mp hs with rfl | hs
    · rw [if_neg (by simp [hf])] at ht
      exact markRemindersLoop_preserves _ _
        (fun u hu hid' => mark_reminder_sent_marked hu hid') t ht hid
    · exact ih _ hs hf t ht hid

/-- An active subscription ending one day from `today = 0`, reminder not yet
sent. -/
def subEndsTomorrow : Subscription :=
  { id := 1, business_id := "biz-1", client_id := 11, amount := 1000,
    currency := "RUB", start_date := -29, end_date := 1,
    status := SubscriptionStatus.active, reminder_sent_at := none }

/-- C1 counterexample: with `today = 0` and `lead_days = 7`, the active,
unreminded subscription ending tomorrow satisfies the claimed inclusive range
`today <= end_date <= today + lead_days`, yet the due set computed by
`send_reminder_for_business` is empty — the filter keeps only subscriptions
ending exactly `lead_days` out. -/
theorem c1_counterexample :
    subEndsTomorrow.status = SubscriptionStatus.active ∧
    subEndsTomorrow.reminder_sent_at = none ∧
    (0 : Int) ≤ subEndsTomorrow.end_date ∧ subEndsTomorrow.end_date ≤ 0 + 7 ∧
    expiring_today [subEndsTomorrow] 0 7 = [] := by
  refine ⟨rfl, rfl, by decide, by decide, rfl⟩

/-- C1 (amended): for every business, every `today` and every lead time, the
due set computed by `send_reminder_for_business` contains exactly those of
the business's subscriptions with status Active, reminder-sent timestamp
null, and end date exactly equal to `today + lead_days`; a subscription whose
end date falls strictly between `today` and `today + lead_days` (e.g. ending
tomorrow with `lead_days = 7`) is excluded. -/
theorem c1_due_set_exact_lead (subs : List Subscription)
    (today days_until : Int) (s : Subscription) :
    s ∈ expiring_today subs today days_until ↔
      s ∈ subs ∧ s.status = SubscriptionStatus.active ∧
        s.end_date = today + days_until ∧ s.reminder_sent_at = none := by
  rw [mem_expiring_today]
  constructor
  · rintro ⟨h1, h2, h3, h4⟩
    exact ⟨h1, h2, by omega, h4⟩
  · rintro ⟨h1, h2, h3, h4⟩
    exact ⟨h1, h2, by omega, h4⟩

/-- C2: with every operation of the first call succeeding, running
`send_reminder_for_business` twice in succession on the same business with
the same `today` and lead time sends at most one message the first time and
none the second time: the markings written by the first call remove every
previously included subscription from the second call's due set. -/
theorem c2_idempotent (subs : List Subscription)
    (today days_until now now2 : Int) :
    (send_reminder_for_business ReminderEnv.allOk subs
        today days_until now).sentMessages.length ≤ 1 ∧
    (send_reminder_for_business ReminderEnv.allOk
        (send_reminder_for_business ReminderEnv.allOk subs
            today days_until now).subs
        today days_until now2).sentMessages.length = 0 := by
  by_cases he : (expiring_today subs today days_until).isEmpty = true
  · simp [send_reminder_for_business, sendReminderBody, ReminderEnv.allOk, he]
  · have hmarked : expiring_today
        (markRemindersLoop (fun _ => false) now
          (expiring_today subs today days_until) subs) today days_until
        = [] := by
      rw [List.eq_nil_iff_forall_not_mem]
      intro t ht
      rw [mem_expiring_today] at ht
      obtain ⟨hmem, hact, hdiff, hnone⟩ := ht
      obtain ⟨hsubs, hne⟩ := markRemindersLoop_none _ _ t hmem hnone
      exact hne t (mem_expiring_today.mpr ⟨hsubs, hact, hdiff, hnone⟩) rfl rfl
    simp [send_reminder_for_business, sendReminderBody, ReminderEnv.allOk,
      he, hmarked]

/-- Environment in which loading the subscriptions raises a transient
error. -/
def envLoadFail : ReminderEnv :=
  { loadSubsFails := true, loadClientsFails := false, sendFails := false,
    markFails := fun _ => false }

/-- C3 counterexample: with the subscription load failing, the routine
raises nothing to its caller — the outer handler catches and logs the error —
whereas the claim says the failure propagates as a retriable failure. -/
theorem c3_counterexample :
    envLoadFail.loadSubsFails = true ∧
    (send_reminder_for_business envLoadFail [] 0 7 100).raised = none ∧
    (send_reminder_for_business envLoadFail [] 0 7 100).logged
      = some ReminderError.loadSubsError :=
  ⟨rfl, rfl, rfl⟩

/-- C3 (amended): a transient failure loading the subscriptions, or loading
the clients when the due set is nonempty, is caught by the routine's own
outer handler and logged; the routine returns normally to its caller — no
exception propagates — with no message sent, no marking attempted, and the
store unchanged, so neither the manual-trigger command layer nor the hourly
sweep observes the error. -/
theorem c3_load_failure_swallowed (env : ReminderEnv)
    (subs : List Subscription) (today days_until now : Int)
    (h : env.loadSubsFails = true ∨
         (env.loadSubsFails = false ∧ env.loadClientsFails = true ∧
          (expiring_today subs today days_until).isEmpty = false)) :
    (send_reminder_for_business env subs today days_until now).raised = none ∧
    (send_reminder_for_business env subs today days_until now).logged.isSome
      = true ∧
    (send_reminder_for_business env subs today days_until now).sentMessages
      = [] ∧
    (send_reminder_for_business env subs today days_until now).markAttempts
      = [] ∧
    (send_reminder_for_business env subs today days_until now).subs = subs := by
  rcases h with h1 | ⟨h1, h2, h3⟩
  · simp [send_reminder_for_business, sendReminderBody, h1]
  · simp [send_reminder_for_business, sendReminderBody, h1, h2, h3]

/-- Witness for C3: the amended statement instantiated at a failing
subscription load over an empty store. -/
theorem c3_load_failure_swallowed_witness :
    (send_reminder_for_business envLoadFail [] 0 7 100).raised = none ∧
    (send_reminder_for_business envLoadFail [] 0 7 100).logged.isSome = true ∧
    (send_reminder_for_business envLoadFail [] 0 7 100).sentMessages = [] ∧
    (send_reminder_for_business envLoadFail [] 0 7 100).markAttempts = [] ∧
    (send_reminder_for_business envLoadFail [] 0 7 100).subs = [] :=
  c3_load_failure_swallowed envLoadFail [] 0 7 100 (Or.inl rfl)

/-- Environment in which the Telegram send raises. -/
def envSendFail : ReminderEnv :=
  { loadSubsFails := false, loadClientsFails := false, sendFails := true,
    markFails := fun _ => false }

/-- An active subscription ending exactly 7 days from `today = 0`, reminder
not yet sent. -/
def subDueIn7 : Subscription :=
  { id := 2, business_id := "biz-1", client_id := 12, amount := 2500,
    currency := "RUB", start_date := -23, end_date := 7,
    status := SubscriptionStatus.active, reminder_sent_at := none }

/-- C4 counterexample: with one subscription due and the notification send
failing, the routine raises nothing to its caller — the send error is caught
and logged by the routine's own handler — whereas the claim says the routine
propagates that failure. -/
theorem c4_counterexample :
    (expiring_today [subDueIn7] 0 7).isEmpty = false ∧
    (send_reminder_for_business envSendFail [subDueIn7] 0 7 100).raised
      = none ∧
    (send_reminder_for_business envSendFail [subDueIn7] 0 7 100).logged
      = some ReminderError.sendError :=
  ⟨rfl, rfl, rfl⟩

/-- C4 (amended): if the notification send inside
`send_reminder_for_business` fails, the routine attempts no reminder-sent
markings, so every subscription's reminder-sent timestamp is left unchanged;
the failure, however, does not propagate to the caller — it is caught and
logged by the routine's own outer handler. -/
theorem c4_send_failure_no_markings (env : ReminderEnv)
    (subs : List Subscription) (today days_until now : Int)
    (h1 : env.loadSubsFails = false) (h2 : env.loadClientsFails = false)
    (h3 : env.sendFails = true)
    (h4 : (expiring_today subs today days_until).isEmpty = false) :
    (send_reminder_for_business env subs today days_until now).subs = subs ∧
    (send_reminder_for_business env subs today days_until now).sentMessages
      = [] ∧
    (send_reminder_for_business env subs today days_until now).markAttempts
      = [] ∧
    (send_reminder_for_business env subs today days_until now).raised = none ∧
    (send_reminder_for_business env subs today days_until now).logged
      = some ReminderError.sendError := by
  simp [send_reminder_for_business, sendReminderBody, h1, h2, h3, h4]

/-- Witness for C4: the amended statement instantiated at a failing send
with one due subscription. -/
theorem c4_send_failure_no_markings_witness :
    (send_reminder_for_business envSendFail [subDueIn7] 0 7 100).subs
      = [subDueIn7] ∧
    (send_reminder_for_business envSendFail [subDueIn7] 0 7 100).sentMessages
      = [] ∧
    (send_reminder_for_business envSendFail [subDueIn7] 0 7 100).markAttempts
      = [] ∧
    (send_reminder_for_business envSendFail [subDueIn7] 0 7 100).raised
      = none ∧
    (send_reminder_for_business envSendFail [subDueIn7] 0 7 100).logged
      = some ReminderError.sendError :=
  c4_send_failure_no_markings envSendFail [subDueIn7] 0 7 100 rfl rfl rfl rfl

theorem concat_get_length {α : Type} :
    ∀ (l : List α) (a : α), (l ++ [a]).get? l.length = some a
  | [], _ => rfl
  | _ :: l, a => concat_get_length l a

theorem concat_set_length {α : Type} :
    ∀ (l : List α) (a x : α), (l ++ [a]).set l.length x = l ++ [x]
  | [], _, _ => rfl
  | b :: l, a, x => by
      show b :: (l ++ [a]).set l.length x = b :: (l ++ [x])
      rw [concat_set_length l a x]

/-- The world after `start` followed by one successful `stop` from the fresh
instance: one scheduler object exists, shut down, still referenced by
`self.scheduler`. -/
def stoppedWorld : SchedulerWorld :=
  { scheduler := some 0,
    pool := [{ running := false, jobs := ["hourly_reminders"] }] }

/-- C5 counterexample: calling `start` twice on a fresh instance leaves two
live hourly timer registrations (the first `AsyncIOScheduler` is abandoned
but keeps running), and calling `stop` twice after a `start` raises
`SchedulerNotRunningError` on the second call — refuting both the
"exactly one timer registration" and the "never raises" parts of the
claim. -/
theorem c5_counterexample :
    activeTimerRegistrations
        (SchedulerWorld.start (SchedulerWorld.start SchedulerWorld.initial))
      = 2 ∧
    SchedulerWorld.stop (SchedulerWorld.start SchedulerWorld.initial)
      = Except.ok stoppedWorld ∧
    SchedulerWorld.stop stoppedWorld
      = Except.error "SchedulerNotRunningError" :=
  ⟨rfl, rfl, rfl⟩

/-- C5 (amended): `stop` on a never-started instance is a safe no-op, but
`start` is not idempotent — each call registers a fresh running scheduler
with its hourly job while leaving any previous one running, so the number of
live hourly timer registrations grows by one per `start`; and after a
successful `stop`, a second `stop` raises `SchedulerNotRunningError` because
`self.scheduler` still references the already-shut-down scheduler. -/
theorem c5_lifecycle (w : SchedulerWorld) :
    activeTimerRegistrations (SchedulerWorld.start w)
      = activeTimerRegistrations w + 1 ∧
    SchedulerWorld.stop SchedulerWorld.initial
      = Except.ok SchedulerWorld.initial ∧
    (∀ w2, SchedulerWorld.stop (SchedulerWorld.start w) = Except.ok w2 →
       SchedulerWorld.stop w2 = Except.error "SchedulerNotRunningError") := by
  refine ⟨?_, rfl, ?_⟩
  · simp [activeTimerRegistrations, SchedulerWorld.start, List.filter_append]
  · intro w2 h
    rw [SchedulerWorld.stop] at h
    simp only [SchedulerWorld.start] at h
    rw [concat_get_length w.pool] at h
    simp only [if_pos rfl] at h
    rw [concat_set_length w.pool] at h
    cases h
    rw [SchedulerWorld.stop]
    simp only
    rw [concat_get_length w.pool]
    rfl

/-- Witness for C5: the amended statement's stop-after-stop branch
discharged at the fresh instance. -/
theorem c5_lifecycle_witness :
    SchedulerWorld.stop stoppedWorld
      = Except.error "SchedulerNotRunningError" :=
  (c5_lifecycle SchedulerWorld.initial).2.2 stoppedWorld rfl

/-- C6: the hourly sweep never raises past its caller — for every fetch
outcome and every behaviour of the per-owner block it returns `ok` — and the
owner loop handles each row independently: the outcome of any one row is the
same `perOwner` value regardless of what the loop did (including caught
exceptions) on the rows before or after it. -/
theorem c6_sweep_isolation (fetch : FetchResult) (current_hour : Int)
    (handle : Int → Int → Except String Unit)
    (pre post : List OwnerRow) (row : OwnerRow) :
    (∃ results, send_hourly_reminders fetch current_hour handle
        = Except.ok results) ∧
    sweepLoop current_hour handle (pre ++ row :: post)
      = sweepLoop current_hour handle pre
        ++ perOwner current_hour handle row
          :: sweepLoop current_hour handle post := by
  refine ⟨?_, ?_⟩
  · cases hb : sweepBody fetch current_hour handle with
    | ok r => exact ⟨r, by simp [send_hourly_reminders, hb]⟩
    | error e => exact ⟨[], by simp [send_hourly_reminders, hb]⟩
  · induction pre with
    | nil => rfl
    | cons r rest ih => simp [sweepLoop, List.cons_append, ih]

/-- C7: after a successful send with a nonempty due set,
`send_reminder_for_business` delivers exactly one message listing every due
subscription, attempts one marking per due subscription, and each marking
succeeds or fails independently: for every due subscription whose own
marking succeeds, every row with its id ends up marked, regardless of which
other markings fail. -/
theorem c7_independent_markings (env : ReminderEnv)
    (subs : List Subscription) (today days_until now : Int)
    (h1 : env.loadSubsFails = false) (h2 : env.loadClientsFails = false)
    (h3 : env.sendFails = false)
    (h4 : (expiring_today subs today days_until).isEmpty = false) :
    (send_reminder_for_business env subs today days_until now).sentMessages
      = [(expiring_today subs today days_until).map (·.id)] ∧
    (send_reminder_for_business env subs today days_until now).markAttempts
      = (expiring_today subs today days_until).map (·.id) ∧
    ∀ s ∈ expiring_today subs today days_until, env.markFails s.id = false →
      ∀ t ∈ (send_reminder_for_business env subs today days_until now).subs,
        t.id = s.id → t.reminder_sent_at = some now := by
  have hres : send_reminder_for_business env subs today days_until now =
      { subs := markRemindersLoop env.markFails now
          (expiring_today subs today days_until) subs,
        sentMessages := [(expiring_today subs today days_until).map (·.id)],
        markAttempts := (expiring_today subs today days_until).map (·.id),
        raised := none, logged := none } := by
    simp [send_reminder_for_business, sendReminderBody, h1, h2, h3, h4]
  refine ⟨by rw [hres], by rw [hres], ?_⟩
  intro s hs hf t ht hid
  rw [hres] at ht
  exact markRemindersLoop_marked _ _ hs hf t ht hid

/-- A second active subscription of the same business ending exactly 7 days
out, reminder not yet sent. -/
def subDueIn7b : Subscription :=
  { id := 3, business_id := "biz-1", client_id := 13, amount := 1800,
    currency := "RUB", start_date := -23, end_date := 7,
    status := SubscriptionStatus.active, reminder_sent_at := none }

/-- Environment in which only the marking of subscription 3 fails. -/
def envMark3Fails : ReminderEnv :=
  { loadSubsFails := false, loadClientsFails := false, sendFails := false,
    markFails := fun sid => sid == 3 }

/-- Witness for C7: two due subscriptions, the marking of the second one
failing — exactly one message listing both was sent, and the first
subscription's row is marked. -/
theorem c7_independent_markings_witness :
    (send_reminder_for_business envMark3Fails [subDueIn7, subDueIn7b]
        0 7 100).sentMessages = [[2, 3]] ∧
    ({ subDueIn7 with reminder_sent_at := some 100 }
        : Subscription).reminder_sent_at = some 100 := by
  have h := c7_independent_markings envMark3Fails [subDueIn7, subDueIn7b]
    0 7 100 rfl rfl rfl rfl
  refine ⟨by rw [h.1]; rfl, ?_⟩
  exact h.2.2 subDueIn7 (by decide) rfl
    ({ subDueIn7 with reminder_sent_at := some 100 }) (by decide) rfl

/-- An expired subscription otherwise inside the reminder window. -/
def subExpiredStatus : Subscription :=
  { id := 4, business_id := "biz-1", client_id := 14, amount := 900,
    currency := "RUB", start_date := -23, end_date := 7,
    status := SubscriptionStatus.expired, reminder_sent_at := none }

/-- C8: a subscription whose status is not Active is never in the due set
computed by `send_reminder_for_business`, whatever its end date and
reminder-sent timestamp. -/
theorem c8_inactive_never_due (subs : List Subscription)
    (today days_until : Int) (s : Subscription)
    (h : s.status ≠ SubscriptionStatus.active) :
    s ∉ expiring_today subs today days_until := by
  intro hmem
  exact h (mem_expiring_today.mp hmem).2.1

/-- Witness for C8: an Expired subscription ending exactly `lead_days` out
with no reminder sent is still excluded. -/
theorem c8_inactive_never_due_witness :
    subExpiredStatus.status ≠ SubscriptionStatus.active ∧
    subExpiredStatus ∉ expiring_today [subExpiredStatus] 0 7 :=
  ⟨by decide, c8_inactive_never_due [subExpiredStatus] 0 7 subExpiredStatus
    (by decide)⟩

/-- C9 counterexample: for the active, unreminded subscription ending
tomorrow with `days_until = 7`, `list_expiring_subscriptions` selects it but
the inline filter of `send_reminder_for_business` does not — the two filters
do not select the same subset. -/
theorem c9_counterexample :
    list_expiring_subscriptions [subEndsTomorrow] 0 7 = [subEndsTomorrow] ∧
    expiring_today [subEndsTomorrow] 0 7 = [] :=
  ⟨rfl, rfl⟩

/-- C9 (amended): for every nonnegative `days_until`, the inline due-set
filter of `send_reminder_for_business` selects a subset of what
`SupabaseClient.list_expiring_subscriptions` selects with the same `today`
and `days_until` — the inline filter keeps only the subscriptions ending
exactly `days_until` days out, while the store helper keeps the whole
inclusive range, so the inclusion is strict in general. -/
theorem c9_due_subset_of_range (subs : List Subscription)
    (today days_until : Int) (h : 0 ≤ days_until) (s : Subscription)
    (hs : s ∈ expiring_today subs today days_until) :
    s ∈ list_expiring_subscriptions subs today days_until := by
  rw [mem_expiring_today] at hs
  rw [mem_list_expiring]
  obtain ⟨h1, h2, h3, h4⟩ := hs
  exact ⟨h1, h2, by omega, by omega, h4⟩

/-- Witness for C9: a subscription selected by the inline filter is selected
by the store helper as well. -/
theorem c9_due_subset_of_range_witness :
    subDueIn7 ∈ list_expiring_subscriptions [subDueIn7] 0 7 :=
  c9_due_subset_of_range [subDueIn7] 0 7 (by decide) subDueIn7 (by decide)

/-- An enabled-owner row with a matching hour but no telegram user id. -/
def rowNoTid : OwnerRow :=
  { reminder_hour := some 10, telegram_user_id := none,
    reminder_days_before := some 5 }

/-- C10: in the hourly sweep's owner loop, a row without `reminder_hour` is
handled exactly like one with hour 10, a row without `reminder_days_before`
is handled exactly like one with a 7-day lead, and a row whose
`telegram_user_id` is absent or zero is skipped outright — the guarded
per-owner block is never invoked for it, so no send and no marking happen
for that owner. -/
theorem c10_owner_row_defaults (current_hour : Int)
    (handle : Int → Int → Except String Unit) (row : OwnerRow) :
    perOwner current_hour handle { row with reminder_hour := none }
      = perOwner current_hour handle { row with reminder_hour := some 10 } ∧
    perOwner current_hour handle { row with reminder_days_before := none }
      = perOwner current_hour handle
          { row with reminder_days_before := some 7 } ∧
    ((row.telegram_user_id = none ∨ row.telegram_user_id = some 0) →
      perOwner current_hour handle row = { calls := [], logged := none }) := by
  refine ⟨rfl, rfl, ?_⟩
  intro h
  have htid : row.telegram_user_id.getD 0 = 0 := by
    rcases h with h | h <;> simp [h]
  simp only [perOwner, htid]
  split
  · rfl
  · simp

/-- Witness for C10: the skip branch discharged at a row with a matching
hour and no telegram user id. -/
theorem c10_owner_row_defaults_witness :
    perOwner 10 (fun _ _ => Except.ok ()) rowNoTid
      = { calls := [], logged := none } :=
  (c10_owner_row_defaults 10 (fun _ _ => Except.ok ()) rowNoTid).2.2
    (Or.inl rfl)
